import Mathlib

/-!
A verification development for the retrieval-and-scoring pipeline of a
plagiarism-detection system.  The Python services are shallowly embedded:
similarity values are modelled as rationals, fallible calls (database
queries, per-candidate scorers) as `Option`-valued functions, and the
report-assembly functions as pure Lean functions mirroring the source
line by line.
-/

namespace PlagiarismDetection

/-- One similarity result dictionary produced by the detection loop
(`plagiarism_service._run_detection_methods`): keys `doc_id`, `title`,
`content`, `method`, `similarity`. -/
structure ScoreEntry where
  doc_id : Nat
  title : String
  content : String
  method : String
  similarity : ℚ
deriving DecidableEq, Repr

/-- The per-method weight table of `report_service._calculate_overall_score`:
`weights = {"tfidf": 0.4, "bert": 0.6}` read with `weights.get(method, 0.5)`. -/
def methodWeights (method : String) : ℚ :=
  if method = "tfidf" then 0.4 else if method = "bert" then 0.6 else 0.5

/-- `report_service._calculate_overall_score`: returns 0.0 on the empty list,
otherwise the mean of `similarity * weight` over all entries. -/
def calculate_overall_score (similarity_results : List ScoreEntry) : ℚ :=
  if similarity_results = [] then 0.0
  else
    let weighted_scores := similarity_results.map
      (fun r => r.similarity * methodWeights r.method)
    if weighted_scores = [] then 0.0
    else weighted_scores.sum / (weighted_scores.length : ℚ)

/-- `report_service._classify_plagiarism_level`. -/
def classify_plagiarism_level (score : ℚ) : String :=
  if 0.8 ≤ score then "High"
  else if 0.5 ≤ score then "Moderate"
  else if 0.2 ≤ score then "Low"
  else "Minimal"

/-- `report_service._classify_risk_level`. -/
def classify_risk_level (similarity : ℚ) : String :=
  if 0.8 ≤ similarity then "High Risk"
  else if 0.5 ≤ similarity then "Medium Risk"
  else if 0.3 ≤ similarity then "Low Risk"
  else "Safe"

/-! ### Python string primitives

The services use `str.split()`, `str.split('.')`, `str.strip()`,
`str.lower()`, slicing and the `in` substring test.  They are embedded as
structural recursions over the character list so that concrete inputs
evaluate. -/

/-- Python `str.split()` (no separator): split on whitespace runs, dropping
empty pieces.  `acc` holds the current word reversed. -/
def splitWsAux : List Char → List Char → List (List Char)
  | acc, [] => if acc = [] then [] else [acc.reverse]
  | acc, c :: rest =>
    if c.isWhitespace then
      (if acc = [] then [] else [acc.reverse]) ++ splitWsAux [] rest
    else splitWsAux (c :: acc) rest

/-- Python `text.split()`. -/
def pySplit (s : String) : List String :=
  (splitWsAux [] s.data).map List.asString

/-- Python `str.split(sep)` for a one-character separator: keeps empty
pieces, always returns at least one piece. -/
def splitSepAux (sep : Char) : List Char → List Char → List (List Char)
  | acc, [] => [acc.reverse]
  | acc, c :: rest =>
    if c = sep then acc.reverse :: splitSepAux sep [] rest
    else splitSepAux sep (c :: acc) rest

/-- Python `text.split('.')` and friends. -/
def pySplitOnChar (sep : Char) (s : String) : List String :=
  (splitSepAux sep [] s.data).map List.asString

/-- Python `str.strip()`: drop whitespace from both ends. -/
def pyStrip (s : String) : String :=
  (((s.data.dropWhile Char.isWhitespace).reverse.dropWhile Char.isWhitespace).reverse).asString

/-- Python `str.lower()`. -/
def pyLower (s : String) : String :=
  (s.data.map Char.toLower).asString

/-- Python `needle in hay` on character lists: some rotation of `hay` starts
with `needle`. -/
def containsSub (needle : List Char) : List Char → Bool
  | [] => needle.isEmpty
  | c :: rest => needle.isPrefixOf (c :: rest) || containsSub needle rest

/-- Python `needle in hay` for strings. -/
def pyContains (hay needle : String) : Bool :=
  containsSub needle.data hay.data

/-! ### Section locator (`report_service._identify_plagiarized_sections`) -/

/-- One emitted section dictionary of
`report_service._identify_plagiarized_sections`. -/
structure PlagiarizedSection where
  sentence_index : Nat
  sentence : String
  similarity : ℚ
  source : String
  source_id : Nat
deriving DecidableEq, Repr

/-- The inner loop of `_identify_plagiarized_sections`: one sentence against
every similarity result. -/
def sentence_matches (i : Nat) (sentence : String)
    (similarity_results : List ScoreEntry) : List PlagiarizedSection :=
  similarity_results.filterMap fun r =>
    if 0.7 < r.similarity then
      if pyContains (pyLower r.content) (pyLower (pyStrip sentence)) then
        some { sentence_index := i, sentence := pyStrip sentence,
               similarity := r.similarity, source := r.title, source_id := r.doc_id }
      else none
    else none

/-- The outer loop of `_identify_plagiarized_sections` over the enumerated
sentences, skipping those whose stripped length is below 10. -/
def sections_from (similarity_results : List ScoreEntry) :
    Nat → List String → List PlagiarizedSection
  | _, [] => []
  | i, sentence :: rest =>
    (if (pyStrip sentence).length < 10 then []
     else sentence_matches i sentence similarity_results) ++
    sections_from similarity_results (i + 1) rest

/-- `report_service._identify_plagiarized_sections`: split the text on `'.'`,
enumerate, and collect the matches. -/
def identify_plagiarized_sections (text : String)
    (similarity_results : List ScoreEntry) : List PlagiarizedSection :=
  sections_from similarity_results 0 (pySplitOnChar '.' text)

/-! ### Source analysis (`report_service._analyze_sources`) -/

/-- One source dictionary of `report_service._analyze_sources`. -/
structure SourceSummary where
  title : String
  similarity : ℚ
  method : String
  doc_id : Nat
  risk_level : String
deriving DecidableEq, Repr

/-- The dictionary `_analyze_sources` builds from one retained result. -/
def toSourceSummary (r : ScoreEntry) : SourceSummary :=
  { title := r.title, similarity := r.similarity, method := r.method,
    doc_id := r.doc_id, risk_level := classify_risk_level r.similarity }

/-- The comparison used by `sorted(..., key=lambda x: x.get("similarity", 0),
reverse=True)`: a stable sort putting larger similarities first. -/
def bySimilarityDesc (a b : ScoreEntry) : Bool :=
  decide (b.similarity ≤ a.similarity)

/-- `report_service._analyze_sources`: sort by similarity descending, keep
entries with similarity above 0.3, tag each with its risk level. -/
def analyze_sources (similarity_results : List ScoreEntry) : List SourceSummary :=
  ((similarity_results.mergeSort bySimilarityDesc).filter
    (fun r => 0.3 < r.similarity)).map toSourceSummary

/-! ### Detection loop (`plagiarism_service._run_detection_methods`)

The two scorers are embedded as `Option`-valued functions: `none` models the
call raising, in which case the `except` branch skips that entry and the
loop continues. -/

/-- `plagiarism_service._run_detection_methods`: for each candidate, try
TF-IDF then BERT, keeping each score strictly above 0.1 as an entry whose
`content` is the candidate's content truncated to 500 characters plus
`"..."`. -/
def run_detection_methods (tfidfSim bertSim : String → String → Option ℚ)
    (uploaded_text : String) : List (Nat × String × String) → List ScoreEntry
  | [] => []
  | (doc_id, title, content) :: rest =>
    (match tfidfSim uploaded_text content with
     | some tfidf_score =>
       if 0.1 < tfidf_score then
         [{ doc_id := doc_id, title := title, content := (content.data.take 500).asString ++ "...",
            method := "tfidf", similarity := tfidf_score }]
       else []
     | none => []) ++
    (match bertSim uploaded_text content with
     | some bert_score =>
       if 0.1 < bert_score then
         [{ doc_id := doc_id, title := title, content := (content.data.take 500).asString ++ "...",
            method := "bert", similarity := bert_score }]
       else []
     | none => []) ++
    run_detection_methods tfidfSim bertSim uploaded_text rest

/-! ### Candidate selection (stage 1 of `plagiarism_service.check_document`)

The SQLite corpus is embedded as the ordered list of `documents` rows
together with the FTS index, an `Option`-valued query function: `none`
models the query raising.  `LIMIT 100` is `List.take 100` of the ranked
result. -/

/-- The corpus store a detection run reads. -/
structure CorpusState where
  documents : List (Nat × String × String)
  ftsQuery : List String → Option (List (Nat × String × String))

/-- The token-deduplication loop of `check_document`: preserve first
occurrences, tracked by the `seen` set. -/
def dedup_go : List String → List String → List String
  | _, [] => []
  | seen, t :: ts =>
    if t ∈ seen then dedup_go seen ts else t :: dedup_go (t :: seen) ts

/-- `tokens = [token for token in cleaned_text.split() if token]`. -/
def tokenize (cleaned_text : String) : List String :=
  (pySplit cleaned_text).filter (fun t => t ≠ "")

/-- Stage 1 of `check_document`: query the FTS index with the first 25
deduplicated tokens, capped at 100 rows; on no tokens, an empty result or a
raising query, fall back to the first 100 `documents` rows. -/
def select_candidates (cleaned_text : String) (st : CorpusState) :
    List (Nat × String × String) :=
  let deduped_tokens := dedup_go [] (tokenize cleaned_text)
  if deduped_tokens = [] then st.documents.take 100
  else
    match st.ftsQuery (deduped_tokens.take 25) with
    | some docs =>
      let reference_files := docs.take 100
      if reference_files = [] then st.documents.take 100 else reference_files
    | none => st.documents.take 100

/-! ### Report assembly (`report_service.generate_plagiarism_report`)

Only the deterministic fields the pipeline computes from its inputs are
modelled; `report_id` and `timestamp` (clock reads, embedded separately
below), `document_stats` and `recommendations` are outside every claim about
this function.  The `"detailed"` template only adds keys on top of the base
report, so the base fields below are those of the returned report. -/

/-- The deterministic core of the report dictionary. -/
structure Report where
  overall_score : ℚ
  plagiarism_level : String
  detection_methods : List String
  total_sources_checked : Nat
  sources : List SourceSummary
  plagiarized_sections : List PlagiarizedSection

/-- `report_service.generate_plagiarism_report` (deterministic fields). -/
def generate_plagiarism_report (uploaded_text : String)
    (similarity_results : List ScoreEntry) (detection_methods : List String) :
    Report :=
  let overall_score := calculate_overall_score similarity_results
  { overall_score := overall_score,
    plagiarism_level := classify_plagiarism_level overall_score,
    detection_methods := detection_methods,
    total_sources_checked := similarity_results.length,
    sources := analyze_sources similarity_results,
    plagiarized_sections := identify_plagiarized_sections uploaded_text similarity_results }

/-- `plagiarism_service.check_document` on the database path
(`reference_files is None`): clean, select candidates, score them, build the
report.  The text cleaner (`preprocessing.text_cleaner.clean_text`, which
wraps the external NLTK stemmer and stopword list) is passed as a
parameter. -/
def check_document (clean_text : String → String)
    (tfidfSim bertSim : String → String → Option ℚ)
    (uploaded_text : String) (st : CorpusState) : Report :=
  let cleaned_text := clean_text uploaded_text
  let reference_files := select_candidates cleaned_text st
  let similarity_results := run_detection_methods tfidfSim bertSim uploaded_text reference_files
  generate_plagiarism_report uploaded_text similarity_results ["TF-IDF", "BERT"]

/-! ### Report identifiers (`report_service._generate_report_id`) -/

/-- A wall-clock reading: the calendar second and the fraction inside it.
`strftime("%Y%m%d_%H%M%S")` sees only `second`. -/
structure Instant where
  second : Nat
  subsecond : ℚ
deriving DecidableEq

/-- `report_service._generate_report_id`: format the current time to second
resolution, take the first 8 hex digits of the MD5 of that very string, and
join them.  The calendar formatter `fmt` (for `strftime`) and the hash
`md5_hexdigest` are parameters: the id depends on the clock only through
`fmt t.second`. -/
def generate_report_id (md5_hexdigest : String → String) (fmt : Nat → String)
    (t : Instant) : String :=
  let timestamp := fmt t.second
  let random_part := (md5_hexdigest timestamp).take 8
  "PLAG_" ++ timestamp ++ "_" ++ random_part

/-! ### Lexical scorer (`models.tfidf_checker.TFIDFChecker.calculate_similarity`) -/

/-- The term frequency of token `t` in a tokenized document. -/
def tf (tokens : List String) (t : String) : ℕ :=
  tokens.count t

/-- Modelled from the spec: `TFIDFChecker.calculate_similarity` delegates the
whole computation to scikit-learn's `TfidfVectorizer.fit_transform` and
`cosine_similarity`, external library code not in this repository.  Per
§4.2, it "builds a term-frequency/inverse-document-frequency vector space
from exactly the two input texts (a local, per-call vocabulary)" and
"returns the cosine similarity between the two resulting vectors".  Tokens
are the whitespace-separated words; the coordinate of a document vector at
token `t` is its term frequency weighted by `idf t`, the
inverse-document-frequency factor, left as a nonnegative parameter since
§4.2 fixes no formula for it.  A zero denominator (a document with no
weighted tokens) yields 0, the spec's "returns exactly 0 for texts sharing
no vocabulary" degenerate case. -/
noncomputable def calculate_similarity (idf : String → ℝ) (doc1 doc2 : String) : ℝ :=
  let ta := pySplit doc1
  let tb := pySplit doc2
  let vocab := (ta ++ tb).toFinset
  let u : String → ℝ := fun t => (tf ta t : ℝ) * idf t
  let v : String → ℝ := fun t => (tf tb t : ℝ) * idf t
  (∑ t ∈ vocab, u t * v t) /
    (Real.sqrt (∑ t ∈ vocab, u t ^ 2) * Real.sqrt (∑ t ∈ vocab, v t ^ 2))

/-! ## Theorems -/

/-- Every method weight the aggregator can pick is nonnegative. -/
theorem methodWeights_nonneg (method : String) : 0 ≤ methodWeights method := by
  unfold methodWeights
  split
  · norm_num
  · split <;> norm_num

/-- C5: `plagiarism_level` is the pure step function of `overall_score`:
`≥ 0.8 → "High"`, `≥ 0.5 → "Moderate"`, `≥ 0.2 → "Low"`, else `"Minimal"`,
and in particular `0.85 → "High"`, `0.55 → "Moderate"`, `0.25 → "Low"`,
`0.05 → "Minimal"`. -/
theorem classify_plagiarism_level_step :
    (∀ s : ℚ, 0.8 ≤ s → classify_plagiarism_level s = "High") ∧
    (∀ s : ℚ, 0.5 ≤ s → s < 0.8 → classify_plagiarism_level s = "Moderate") ∧
    (∀ s : ℚ, 0.2 ≤ s → s < 0.5 → classify_plagiarism_level s = "Low") ∧
    (∀ s : ℚ, s < 0.2 → classify_plagiarism_level s = "Minimal") ∧
    classify_plagiarism_level 0.85 = "High" ∧
    classify_plagiarism_level 0.55 = "Moderate" ∧
    classify_plagiarism_level 0.25 = "Low" ∧
    classify_plagiarism_level 0.05 = "Minimal" := by
  refine ⟨?_, ?_, ?_, ?_, ?_, ?_, ?_, ?_⟩
  · intro s h
    simp only [classify_plagiarism_level, if_pos h]
  · intro s h1 h2
    simp only [classify_plagiarism_level]
    rw [if_neg (by linarith), if_pos h1]
  · intro s h1 h2
    simp only [classify_plagiarism_level]
    rw [if_neg (by linarith), if_neg (by linarith), if_pos h1]
  · intro s h
    simp only [classify_plagiarism_level]
    rw [if_neg (by linarith), if_neg (by linarith), if_neg (by linarith)]
  · norm_num [classify_plagiarism_level]
  · norm_num [classify_plagiarism_level]
  · norm_num [classify_plagiarism_level]
  · norm_num [classify_plagiarism_level]

/-- C2: on every path (indexed query, empty tokens, fallback sample) the
candidate selector returns at most 100 documents, whatever the submission
text and the corpus state. -/
theorem select_candidates_length_le (cleaned_text : String) (st : CorpusState) :
    (select_candidates cleaned_text st).length ≤ 100 := by
  have htake : ∀ (l : List (Nat × String × String)), (l.take 100).length ≤ 100 := by
    intro l
    simp [List.length_take]
  unfold select_candidates
  dsimp only
  split
  · exact htake st.documents
  · split
    · split
      · exact htake st.documents
      · exact htake _
    · exact htake st.documents

/-- C9 (the code at the failing input): `_generate_report_id` reads the
clock only through `strftime("%Y%m%d_%H%M%S")`, so two runs in the same
wall-clock second — whatever the hash and the calendar formatter do —
produce the very same report id, not distinct ones. -/
theorem generate_report_id_same_second (md5_hexdigest : String → String)
    (fmt : Nat → String) (t₁ t₂ : Instant) (h : t₁.second = t₂.second) :
    generate_report_id md5_hexdigest fmt t₁ = generate_report_id md5_hexdigest fmt t₂ := by
  simp only [generate_report_id, h]

/-- C9 witness: two distinct instants inside second 0 get equal ids. -/
theorem generate_report_id_same_second_witness :
    (⟨0, 0⟩ : Instant) ≠ (⟨0, 1/2⟩ : Instant) ∧
    generate_report_id (fun s => s) (fun _ => "20260101_120000") ⟨0, 0⟩ =
      generate_report_id (fun s => s) (fun _ => "20260101_120000") ⟨0, 1/2⟩ :=
  ⟨by norm_num [Instant.mk.injEq],
   generate_report_id_same_second (fun s => s) (fun _ => "20260101_120000") ⟨0, 0⟩ ⟨0, 1/2⟩ rfl⟩

/-- C4: raising the similarity of one entry, holding every other entry and
the weights fixed, never lowers the overall score. -/
theorem calculate_overall_score_mono (pre post : List ScoreEntry)
    (e : ScoreEntry) (s : ℚ) (hs : e.similarity ≤ s) :
    calculate_overall_score (pre ++ e :: post) ≤
      calculate_overall_score (pre ++ { e with similarity := s } :: post) := by
  have hne1 : pre ++ e :: post ≠ [] := by simp
  have hne2 : pre ++ { e with similarity := s } :: post ≠ [] := by simp
  unfold calculate_overall_score
  rw [if_neg hne1, if_neg hne2]
  simp only [List.map_append, List.map_cons, List.length_append, List.length_cons,
    List.length_map, List.sum_append, List.sum_cons]
  rw [if_neg (by simp), if_neg (by simp)]
  gcongr
  exact methodWeights_nonneg _

/-- C4 witness: a concrete one-entry list where the raised similarity keeps
the score from decreasing. -/
theorem calculate_overall_score_mono_witness :
    calculate_overall_score [⟨1, "a", "c", "tfidf", 0⟩] ≤
      calculate_overall_score [⟨1, "a", "c", "tfidf", 1⟩] :=
  calculate_overall_score_mono [] [] ⟨1, "a", "c", "tfidf", 0⟩ 1 (by norm_num)

/-- C1: the overall score of the empty result list is 0; when every entry
carries method `tfidf` or `bert`, the overall score is the arithmetic mean
of `similarity × weight` with weight 0.4 for `tfidf` and 0.6 for `bert`;
and the detection loop retains an entry only when its similarity is
strictly above 0.1. -/
theorem calculate_overall_score_spec :
    calculate_overall_score [] = 0 ∧
    (∀ rs : List ScoreEntry, rs ≠ [] →
      (∀ r ∈ rs, r.method = "tfidf" ∨ r.method = "bert") →
      calculate_overall_score rs =
        (rs.map fun r => r.similarity *
            (if r.method = "tfidf" then (0.4 : ℚ) else 0.6)).sum / (rs.length : ℚ)) ∧
    (∀ (tfidfSim bertSim : String → String → Option ℚ) (text : String)
        (refs : List (Nat × String × String)) (e : ScoreEntry),
      e ∈ run_detection_methods tfidfSim bertSim text refs →
      (0.1 : ℚ) < e.similarity) := by
  refine ⟨by norm_num [calculate_overall_score], ?_, ?_⟩
  · intro rs hne hm
    have hmap : rs.map (fun r => r.similarity * methodWeights r.method) =
        rs.map (fun r => r.similarity * (if r.method = "tfidf" then (0.4 : ℚ) else 0.6)) := by
      apply List.map_congr_left
      intro r hr
      rcases hm r hr with h | h <;> simp [methodWeights, h]
    unfold calculate_overall_score
    rw [if_neg hne]
    dsimp only
    rw [if_neg (by simpa using hne), List.length_map, hmap]
  · intro tfidfSim bertSim text refs e he
    induction refs with
    | nil => simp [run_detection_methods] at he
    | cons d rest ih =>
      obtain ⟨doc_id, title, content⟩ := d
      simp only [run_detection_methods, List.mem_append] at he
      rcases he with (h | h) | h
      · rcases htf : tfidfSim text content with _ | sc
        · simp [htf] at h
        · rw [htf] at h
          dsimp only at h
          split_ifs at h with hsc
          · obtain rfl := List.mem_singleton.mp h
            simpa using hsc
          · simp at h
      · rcases hbt : bertSim text content with _ | sc
        · simp [hbt] at h
        · rw [hbt] at h
          dsimp only at h
          split_ifs at h with hsc
          · obtain rfl := List.mem_singleton.mp h
            simpa using hsc
          · simp at h
      · exact ih h

/-- C1 witness: two concrete retained entries, one per method, whose overall
score is the weighted mean, and a concrete retained entry of the loop with
similarity above 0.1. -/
theorem calculate_overall_score_spec_witness :
    calculate_overall_score [⟨1, "a", "c", "tfidf", 1⟩, ⟨2, "b", "d", "bert", 1⟩] =
      (([⟨1, "a", "c", "tfidf", 1⟩, ⟨2, "b", "d", "bert", 1⟩] : List ScoreEntry).map
          fun r => r.similarity * (if r.method = "tfidf" then (0.4 : ℚ) else 0.6)).sum / 2 ∧
    ((run_detection_methods (fun _ _ => some 1) (fun _ _ => none) "x" [(1, "t", "c")] =
        [⟨1, "t", ("c".data.take 500).asString ++ "...", "tfidf", 1⟩]) ∧
      (0.1 : ℚ) < (1 : ℚ)) :=
  ⟨calculate_overall_score_spec.2.1 [⟨1, "a", "c", "tfidf", 1⟩, ⟨2, "b", "d", "bert", 1⟩]
      (by simp) (by simp),
   by simp [run_detection_methods]; norm_num,
   calculate_overall_score_spec.2.2 (fun _ _ => some 1) (fun _ _ => none) "x" [(1, "t", "c")]
      ⟨1, "t", ("c".data.take 500).asString ++ "...", "tfidf", 1⟩
      (by simp [run_detection_methods]; norm_num)⟩

/-- C8: the spec-modelled lexical scorer is a total function of its two
texts and always lands in [0, 1]: the weighted vectors have nonnegative
coordinates, so the cosine numerator is nonnegative, and Cauchy-Schwarz
bounds it by the product of the norms; a vanishing denominator yields
exactly 0. -/
theorem calculate_similarity_bounds (idf : String → ℝ) (hidf : ∀ t, 0 ≤ idf t)
    (doc1 doc2 : String) :
    0 ≤ calculate_similarity idf doc1 doc2 ∧
      calculate_similarity idf doc1 doc2 ≤ 1 := by
  unfold calculate_similarity
  dsimp only
  set ta := pySplit doc1
  set tb := pySplit doc2
  set vocab := (ta ++ tb).toFinset
  set u : String → ℝ := fun t => (tf ta t : ℝ) * idf t
  set v : String → ℝ := fun t => (tf tb t : ℝ) * idf t
  have hu0 : ∀ t, 0 ≤ u t := fun t => mul_nonneg (Nat.cast_nonneg _) (hidf t)
  have hv0 : ∀ t, 0 ≤ v t := fun t => mul_nonneg (Nat.cast_nonneg _) (hidf t)
  have hdot : 0 ≤ ∑ t ∈ vocab, u t * v t :=
    Finset.sum_nonneg fun t _ => mul_nonneg (hu0 t) (hv0 t)
  have hden : 0 ≤ Real.sqrt (∑ t ∈ vocab, u t ^ 2) * Real.sqrt (∑ t ∈ vocab, v t ^ 2) :=
    mul_nonneg (Real.sqrt_nonneg _) (Real.sqrt_nonneg _)
  exact ⟨div_nonneg hdot hden,
    div_le_one_of_le₀ (Real.sum_mul_le_sqrt_mul_sqrt vocab u v) hden⟩

/-- C8 witness: the bounds at two concrete texts with the constant-1
inverse-document-frequency weighting. -/
theorem calculate_similarity_bounds_witness :
    0 ≤ calculate_similarity (fun _ => 1) "a" "b" ∧
      calculate_similarity (fun _ => 1) "a" "b" ≤ 1 :=
  calculate_similarity_bounds (fun _ => 1) (fun _ => zero_le_one) "a" "b"

/-- C6 (amended): the sources list keeps exactly the entries with
similarity above 0.3 — one summary per retained ScoreEntry, so a document
scored by both methods appears once per method — ranked descending by
similarity, each tagged with the risk step function
`≥ 0.8 → "High Risk"`, `≥ 0.5 → "Medium Risk"`, `≥ 0.3 → "Low Risk"`,
else `"Safe"`. -/
theorem analyze_sources_spec (similarity_results : List ScoreEntry) :
    (analyze_sources similarity_results).Pairwise
        (fun a b => b.similarity ≤ a.similarity) ∧
    (analyze_sources similarity_results).Perm
        ((similarity_results.filter (fun r => 0.3 < r.similarity)).map toSourceSummary) ∧
    (∀ ssum ∈ analyze_sources similarity_results,
      (0.3 : ℚ) < ssum.similarity ∧
        ssum.risk_level = classify_risk_level ssum.similarity) ∧
    (∀ s : ℚ,
      (0.8 ≤ s → classify_risk_level s = "High Risk") ∧
      (0.5 ≤ s → s < 0.8 → classify_risk_level s = "Medium Risk") ∧
      (0.3 ≤ s → s < 0.5 → classify_risk_level s = "Low Risk") ∧
      (s < 0.3 → classify_risk_level s = "Safe")) := by
  have htrans : ∀ a b c : ScoreEntry,
      bySimilarityDesc a b → bySimilarityDesc b c → bySimilarityDesc a c := by
    intro a b c hab hbc
    simp only [bySimilarityDesc, decide_eq_true_eq] at hab hbc ⊢
    exact le_trans hbc hab
  have htot : ∀ a b : ScoreEntry, bySimilarityDesc a b || bySimilarityDesc b a := by
    intro a b
    simp only [bySimilarityDesc, Bool.or_eq_true, decide_eq_true_eq]
    exact le_total b.similarity a.similarity
  refine ⟨?_, ?_, ?_, ?_⟩
  · have hsorted := List.sorted_mergeSort htrans htot similarity_results
    exact (hsorted.filter _).map toSourceSummary
      (by
        intro a b hab
        simp only [bySimilarityDesc, decide_eq_true_eq] at hab
        simpa [toSourceSummary] using hab)
  · exact ((List.mergeSort_perm similarity_results bySimilarityDesc).filter _).map
      toSourceSummary
  · intro ssum hs
    unfold analyze_sources at hs
    obtain ⟨r, hr, rfl⟩ := List.mem_map.mp hs
    have hr2 := (List.mem_filter.mp hr).2
    simp only [decide_eq_true_eq] at hr2
    exact ⟨by simpa [toSourceSummary] using hr2, by simp [toSourceSummary]⟩
  · intro s
    refine ⟨?_, ?_, ?_, ?_⟩
    · intro h
      simp only [classify_risk_level, if_pos h]
    · intro h1 h2
      simp only [classify_risk_level]
      rw [if_neg (by linarith), if_pos h1]
    · intro h1 h2
      simp only [classify_risk_level]
      rw [if_neg (by linarith), if_neg (by linarith), if_pos h1]
    · intro h
      simp only [classify_risk_level]
      rw [if_neg (by linarith), if_neg (by linarith), if_neg (by linarith)]

/-- C6 counterexample: one document scored by both methods (similarities
0.6 and 0.5, both above 0.3) yields two SourceSummary entries for the same
`doc_id`, refuting "at most one entry per source document holding that
document's best similarity". -/
theorem analyze_sources_counterexample :
    (analyze_sources [⟨1, "t", "c", "tfidf", 0.6⟩, ⟨1, "t", "c", "bert", 0.5⟩]).map
        (fun ssum => ssum.doc_id) = [1, 1] := by
  have hp : List.Pairwise (fun a b : ScoreEntry => bySimilarityDesc a b = true)
      [⟨1, "t", "c", "tfidf", 0.6⟩, ⟨1, "t", "c", "bert", 0.5⟩] := by
    simp [bySimilarityDesc]
    norm_num
  unfold analyze_sources
  rw [List.mergeSort_of_sorted hp]
  simp only [List.filter_cons, List.filter_nil, decide_eq_true_eq]
  norm_num [toSourceSummary]

/-- The Python substring test agrees with list-infix containment. -/
theorem containsSub_iff (needle hay : List Char) :
    containsSub needle hay = true ↔ needle <:+: hay := by
  induction hay with
  | nil => simp [containsSub, List.isEmpty_iff]
  | cons c rest ih => simp [containsSub, ih, List.infix_cons_iff]

/-- Membership in the inner loop of the section locator. -/
theorem mem_sentence_matches (i : Nat) (sentence : String)
    (similarity_results : List ScoreEntry) (ps : PlagiarizedSection) :
    ps ∈ sentence_matches i sentence similarity_results ↔
      ∃ r ∈ similarity_results, (0.7 : ℚ) < r.similarity ∧
        pyContains (pyLower r.content) (pyLower (pyStrip sentence)) = true ∧
        ps = ⟨i, pyStrip sentence, r.similarity, r.title, r.doc_id⟩ := by
  unfold sentence_matches
  rw [List.mem_filterMap]
  constructor
  · rintro ⟨r, hr, h⟩
    split_ifs at h with h1 h2
    exact ⟨r, hr, h1, h2, (Option.some_inj.mp h).symm⟩
  · rintro ⟨r, hr, h1, h2, rfl⟩
    exact ⟨r, hr, by rw [if_pos h1, if_pos h2]⟩

/-- Membership in the outer loop of the section locator, for any starting
enumeration index. -/
theorem mem_sections_from (similarity_results : List ScoreEntry) (i : Nat)
    (ss : List String) (ps : PlagiarizedSection) :
    ps ∈ sections_from similarity_results i ss ↔
      ∃ j s, ss[j]? = some s ∧ ¬ (pyStrip s).length < 10 ∧
        ps ∈ sentence_matches (i + j) s similarity_results := by
  induction ss generalizing i with
  | nil => simp [sections_from]
  | cons s rest ih =>
    by_cases hshort : (pyStrip s).length < 10
    · rw [sections_from, if_pos hshort, List.nil_append, ih (i + 1)]
      constructor
      · rintro ⟨j, s2, hj, hlen, hm⟩
        refine ⟨j + 1, s2, by simpa using hj, hlen, ?_⟩
        rw [show i + (j + 1) = (i + 1) + j from by omega]
        exact hm
      · rintro ⟨j, s2, hj, hlen, hm⟩
        cases j with
        | zero =>
          obtain rfl : s = s2 := by simpa using hj
          exact absurd hshort hlen
        | succ j =>
          refine ⟨j, s2, by simpa using hj, hlen, ?_⟩
          rw [show (i + 1) + j = i + (j + 1) from by omega]
          exact hm
    · rw [sections_from, if_neg hshort]
      rw [List.mem_append, ih (i + 1)]
      constructor
      · rintro (h | ⟨j, s2, hj, hlen, hm⟩)
        · exact ⟨0, s, by simp, hshort, by simpa using h⟩
        · refine ⟨j + 1, s2, by simpa using hj, hlen, ?_⟩
          rw [show i + (j + 1) = (i + 1) + j from by omega]
          exact hm
      · rintro ⟨j, s2, hj, hlen, hm⟩
        cases j with
        | zero =>
          obtain rfl : s = s2 := by simpa using hj
          left
          simpa using hm
        | succ j =>
          right
          refine ⟨j, s2, by simpa using hj, hlen, ?_⟩
          rw [show (i + 1) + j = i + (j + 1) from by omega]
          exact hm

/-- C7: a PlagiarizedSection is emitted exactly when the text split on `'.'`
has a unit whose stripped length is at least 10, some entry's similarity
exceeds 0.7, and the stripped lowercased sentence is a verbatim substring of
that entry's lowercased content; the section carries the unit's index, the
stripped sentence, that similarity, and the entry's title and document
id. -/
theorem identify_plagiarized_sections_spec (text : String)
    (similarity_results : List ScoreEntry) (ps : PlagiarizedSection) :
    ps ∈ identify_plagiarized_sections text similarity_results ↔
      ∃ i s, (pySplitOnChar '.' text)[i]? = some s ∧
        10 ≤ (pyStrip s).length ∧
        ∃ r ∈ similarity_results, (0.7 : ℚ) < r.similarity ∧
          (pyLower (pyStrip s)).data <:+: (pyLower r.content).data ∧
          ps = ⟨i, pyStrip s, r.similarity, r.title, r.doc_id⟩ := by
  unfold identify_plagiarized_sections
  rw [mem_sections_from]
  apply exists_congr
  intro i
  apply exists_congr
  intro s
  simp only [Nat.zero_add, Nat.not_lt, mem_sentence_matches, pyContains, containsSub_iff]

/-- C10: every entry the detection loop emits takes its fields from some
candidate of the reference list, with `content` being that candidate's
content truncated to its first 500 characters followed by `"..."` — the
field the Section Locator and the per-source report later read. -/
theorem run_detection_methods_content (tfidfSim bertSim : String → String → Option ℚ)
    (text : String) (refs : List (Nat × String × String)) (e : ScoreEntry)
    (he : e ∈ run_detection_methods tfidfSim bertSim text refs) :
    ∃ d ∈ refs, e.doc_id = d.1 ∧ e.title = d.2.1 ∧
      e.content = (d.2.2.data.take 500).asString ++ "..." := by
  induction refs with
  | nil => simp [run_detection_methods] at he
  | cons d rest ih =>
    obtain ⟨doc_id, title, content⟩ := d
    simp only [run_detection_methods, List.mem_append] at he
    rcases he with (h | h) | h
    · rcases htf : tfidfSim text content with _ | sc
      · simp [htf] at h
      · rw [htf] at h
        dsimp only at h
        split_ifs at h
        · obtain rfl := List.mem_singleton.mp h
          exact ⟨(doc_id, title, content), List.mem_cons_self _ _, rfl, rfl, rfl⟩
        · simp at h
    · rcases hbt : bertSim text content with _ | sc
      · simp [hbt] at h
      · rw [hbt] at h
        dsimp only at h
        split_ifs at h
        · obtain rfl := List.mem_singleton.mp h
          exact ⟨(doc_id, title, content), List.mem_cons_self _ _, rfl, rfl, rfl⟩
        · simp at h
    · obtain ⟨d2, hd2, hprops⟩ := ih h
      exact ⟨d2, List.mem_cons_of_mem _ hd2, hprops⟩

/-- C10 witness: a concrete retained entry whose content is the truncation
of the matched candidate's content. -/
theorem run_detection_methods_content_witness :
    ∃ d ∈ [(1, "t", "ab")],
      (⟨1, "t", "ab...", "tfidf", 1⟩ : ScoreEntry).doc_id = d.1 ∧
      (⟨1, "t", "ab...", "tfidf", 1⟩ : ScoreEntry).title = d.2.1 ∧
      (⟨1, "t", "ab...", "tfidf", 1⟩ : ScoreEntry).content = (d.2.2.data.take 500).asString ++ "..." :=
  run_detection_methods_content (fun _ _ => some 1) (fun _ _ => none) "x"
    [(1, "t", "ab")] ⟨1, "t", "ab...", "tfidf", 1⟩
    (by simp [run_detection_methods]; norm_num; rfl)

/-- C3 (amended): when every index query raises, the selector absorbs the
failure and returns the fallback sample (the first 100 corpus rows), the
pipeline still produces its report, and that report's
`total_sources_checked` is the number of retained score entries the
detection loop produced from that fallback set — not the fallback set's
size. -/
theorem check_document_fallback (clean_text : String → String)
    (tfidfSim bertSim : String → String → Option ℚ) (uploaded_text : String)
    (st : CorpusState) (hfts : ∀ q, st.ftsQuery q = none) :
    select_candidates (clean_text uploaded_text) st = st.documents.take 100 ∧
    (check_document clean_text tfidfSim bertSim uploaded_text st).total_sources_checked =
      (run_detection_methods tfidfSim bertSim uploaded_text
        (st.documents.take 100)).length := by
  have h1 : select_candidates (clean_text uploaded_text) st = st.documents.take 100 := by
    unfold select_candidates
    dsimp only
    split
    · rfl
    · rw [hfts]
  refine ⟨h1, ?_⟩
  simp [check_document, generate_plagiarism_report, h1]

/-- C3 witness: a one-document corpus whose index always raises; the
selector hands the fallback sample to the scoring loop and the report
counts that loop's entries. -/
theorem check_document_fallback_witness :
    select_candidates ((fun s : String => s) "abc")
        ⟨[(1, "Doc", "x")], fun _ => none⟩ =
      (⟨[(1, "Doc", "x")], fun _ => none⟩ : CorpusState).documents.take 100 ∧
    (check_document (fun s => s) (fun _ _ => some 1) (fun _ _ => some 1) "abc"
        ⟨[(1, "Doc", "x")], fun _ => none⟩).total_sources_checked =
      (run_detection_methods (fun _ _ => some 1) (fun _ _ => some 1) "abc"
        ((⟨[(1, "Doc", "x")], fun _ => none⟩ : CorpusState).documents.take 100)).length :=
  check_document_fallback (fun s => s) (fun _ _ => some 1) (fun _ _ => some 1) "abc"
    ⟨[(1, "Doc", "x")], fun _ => none⟩ (fun _ => rfl)

/-- C3 counterexample: with the same failing index, a fallback set of one
document and both scorers succeeding, the report's `total_sources_checked`
is 2 (one entry per method) while the fallback candidate set has size 1, so
the two are not equal as the claim states. -/
theorem check_document_fallback_counterexample :
    (check_document (fun s => s) (fun _ _ => some 1) (fun _ _ => some 1) "abc"
        ⟨[(1, "Doc", "x")], fun _ => none⟩).total_sources_checked = 2 ∧
    (([(1, "Doc", "x")] : List (Nat × String × String)).take 100).length = 1 := by
  have htok : tokenize "abc" = ["abc"] := by decide
  have hsel : select_candidates "abc" (⟨[(1, "Doc", "x")], fun _ => none⟩ : CorpusState) =
      [(1, "Doc", "x")] := by
    unfold select_candidates
    rw [htok]
    rfl
  constructor
  · simp only [check_document, generate_plagiarism_report, hsel]
    simp [run_detection_methods]
    norm_num
  · rfl

end PlagiarismDetection

